import Mathlib

/-!
Shallow embedding of the Ada3 assistant (Python) for checking its
specification.  The embedding covers:

* `core/events.py` — `Event`, `EventTypes`, `EventBus`
  (`subscribe`, `unsubscribe`, `publish`, `get_subscriber_count`);
* `core/base.py` — the `BaseModule` lifecycle (`start`, `stop`,
  `update_status`);
* `modules/conversation/conversation_module.py` — the bounded
  conversation history, the enqueue event handlers and `stop`/`cleanup`;
* `core/assistant.py` — the module start loop of `Assistant.start`.

Callbacks are modelled by natural-number identifiers; whether a callback
raises is a parameter (`fails : Nat → Bool`).  Python exceptions are
modelled with `Except`: a function that can raise to its caller returns
`Except String _`, while a function whose body catches every exception
returns a plain value.  Python dicts are association lists in insertion
order, matching dict iteration order.
-/

/-- Payload of an event.  In the Python code `event.data` is usually a dict;
a payload of any other shape makes attribute access such as `.get` raise.
Dict values are modelled as strings (the handlers only test them for
truthiness and copy them into messages). -/
inductive EventData where
  | dict (entries : List (String × String))
  | notDict
deriving DecidableEq

/-- Model of the `Event` dataclass of `core/events.py` (the timestamp field
plays no role in any claim and is omitted). -/
structure Event where
  type : String
  data : EventData
deriving DecidableEq

/-- Constant `EventTypes.VOICE_COMMAND`. -/
def EventTypes.VOICE_COMMAND : String := "voice_command"

/-- Constant `EventTypes.TEXT_INPUT`. -/
def EventTypes.TEXT_INPUT : String := "text_input"

/-- Constant `EventTypes.SPEECH_OUTPUT`. -/
def EventTypes.SPEECH_OUTPUT : String := "speech_output"

/-- Constant `EventTypes.SYSTEM_STATUS`. -/
def EventTypes.SYSTEM_STATUS : String := "system_status"

/-- Constant `EventTypes.VISION_UPDATE`. -/
def EventTypes.VISION_UPDATE : String := "vision_update"

/-- Constant `EventTypes.ERROR`. -/
def EventTypes.ERROR : String := "error"

/-- The set `EventTypes.ALL_TYPES` ("Add all event types to a set for
validation" in the source); it is referenced nowhere else in the code. -/
def EventTypes.ALL_TYPES : List String :=
  [EventTypes.VOICE_COMMAND, EventTypes.TEXT_INPUT, EventTypes.SPEECH_OUTPUT,
   EventTypes.SYSTEM_STATUS, EventTypes.VISION_UPDATE, EventTypes.ERROR]

/-- The subscriber registry `self.subscribers : defaultdict(list)`: for each
event type, the list of callbacks in subscription order.  A `defaultdict`
keeps a key once it has been created, even when its list becomes empty. -/
abbrev Registry := List (String × List Nat)

/-- Dict lookup: `d[k]` / `d.get(k)` on the registry, `none` when the key is
absent. -/
def regGet : Registry → String → Option (List Nat)
  | [], _ => none
  | (k, v) :: rest, t => if k = t then some v else regGet rest t

/-- Replacement of the value stored under a key that is present (plain item
assignment on a dict; a missing key is left untouched). -/
def regSet : Registry → String → List Nat → Registry
  | [], _, _ => []
  | (k, v) :: rest, t, w => if k = t then (k, w) :: rest else (k, v) :: regSet rest t w

/-- State of an `EventBus` (the logger carries no state relevant to any
claim). -/
structure EventBus where
  subscribers : Registry
deriving DecidableEq

/-- A fresh `EventBus()`: the defaultdict starts empty. -/
def EventBus.new : EventBus := ⟨[]⟩

/-- Helper for `subscribe` on the raw registry. -/
def subAux : Registry → String → Nat → Registry
  | [], t, c => [(t, [c])]
  | (k, v) :: rest, t, c =>
      if k = t then (k, v ++ [c]) :: rest else (k, v) :: subAux rest t c

/-- Model of `EventBus.subscribe`:
`self.subscribers[event_type].append(callback)`.  The defaultdict access
creates the key (with an empty list) when absent, so a new key is added at
the end in insertion order and the callback appended. -/
def subscribe (bus : EventBus) (event_type : String) (callback : Nat) : EventBus :=
  ⟨subAux bus.subscribers event_type callback⟩

/-- Python `list.remove(x)`: removes the first occurrence of `x`, raising
`ValueError` when `x` is not in the list. -/
def listRemove (c : Nat) : List Nat → Except String (List Nat)
  | [] => .error "ValueError"
  | x :: xs => if x = c then .ok xs else (listRemove c xs).map (fun ys => x :: ys)

/-- Model of `EventBus.unsubscribe`: `if event_type in self.subscribers:
self.subscribers[event_type].remove(callback)`.  When the key is absent the
call is a no-op; when the key is present, `list.remove` raises `ValueError`
if the callback is not in the list. -/
def unsubscribe (bus : EventBus) (event_type : String) (callback : Nat) :
    Except String EventBus :=
  match regGet bus.subscribers event_type with
  | none => .ok bus
  | some l => (listRemove callback l).map
      (fun l2 => ⟨regSet bus.subscribers event_type l2⟩)

/-- One callback invocation: the callback either returns or raises an
exception (`fails` says which callbacks raise). -/
def runCallback (fails : Nat → Bool) (c : Nat) : Except String Unit :=
  if fails c then .error "callback exception" else .ok ()

/-- The `for callback in ...: try: callback(event) except Exception: log`
loop of `EventBus.publish`, returning the callbacks invoked (in order) and
the callbacks whose exception was caught and logged.  The `except` branch
only logs, so after either outcome the loop continues with the rest. -/
def publishLoop (fails : Nat → Bool) : List Nat → List Nat × List Nat
  | [] => ([], [])
  | c :: rest =>
      match runCallback fails c with
      | .ok _ =>
          let r := publishLoop fails rest
          (c :: r.1, r.2)
      | .error _ =>
          let r := publishLoop fails rest
          (c :: r.1, c :: r.2)

/-- Result of `EventBus.publish`: the registry afterwards (the defaultdict
read `self.subscribers[event.type]` creates the key when absent), the
callbacks invoked, and the caught-and-logged callback errors.  `publish`
returns a plain result, not an `Except`: the only statement of its body
that can raise is the callback call, wrapped in `try/except Exception`. -/
structure PublishResult where
  bus : EventBus
  invoked : List Nat
  logged : List Nat
deriving DecidableEq

/-- Model of `EventBus.publish`: iterate over
`self.subscribers[event.type]`, invoking each callback and logging (not
propagating) its exceptions.  No validation of `event.type` against
`EventTypes.ALL_TYPES` happens anywhere. -/
def publish (fails : Nat → Bool) (bus : EventBus) (e : Event) : PublishResult :=
  let l := (regGet bus.subscribers e.type).getD []
  let bus2 : EventBus :=
    match regGet bus.subscribers e.type with
    | some _ => bus
    | none => ⟨bus.subscribers ++ [(e.type, [])]⟩
  let r := publishLoop fails l
  ⟨bus2, r.1, r.2⟩

/-- Python truthiness of the optional `event_type` argument of
`get_subscriber_count`: `None` and the empty string are falsy. -/
def strTruthy : Option String → Bool
  | none => false
  | some s => s ≠ ""

/-- Model of `EventBus.get_subscriber_count`: `if event_type:` return
`len(self.subscribers.get(event_type, []))`, else the sum over all lists. -/
def get_subscriber_count (bus : EventBus) (event_type : Option String) : Nat :=
  if strTruthy event_type then
    ((regGet bus.subscribers (event_type.getD "")).getD []).length
  else
    (bus.subscribers.map (fun p => p.2.length)).sum

/-- A concrete bus with one subscriber on `voice_command`, for the
counterexamples. -/
def demoBus : EventBus := subscribe EventBus.new EventTypes.VOICE_COMMAND 0

/-!
Interleaved dispatch.  `EventBus` takes no lock anywhere and `publish`
iterates directly over the live list `self.subscribers[event.type]`.  A
Python `for` loop holds a list iterator: an index into the shared list; each
iteration reads the element at the index (ending the loop when the index
reaches the length) and increments the index.  Concurrent `subscribe` /
`unsubscribe` calls mutate that same list, so their effect on an ongoing
dispatch is captured by interleaving atomic steps.
-/

/-- State of one `publish` call in progress over the live subscriber list of
the event's type: the shared list, the iterator index, and the callbacks
delivered to so far. -/
structure DispatchState where
  subs : List Nat
  idx : Nat
  delivered : List Nat
deriving DecidableEq

/-- Removal of the first occurrence, the effect of `list.remove` when the
element is present (as it is at every `unsubscribeStep` of the traces
considered). -/
def eraseFirst (c : Nat) : List Nat → List Nat
  | [] => []
  | x :: xs => if x = c then xs else x :: eraseFirst c xs

/-- One atomic step interleaved into a dispatch: the publisher thread runs
one iteration of its `for` loop, or another thread completes an
`unsubscribe` or `subscribe` for the same event type. -/
inductive BusAction where
  | deliverNext
  | unsubscribeStep (c : Nat)
  | subscribeStep (c : Nat)
deriving DecidableEq

/-- Effect of one interleaved step on the dispatch state. -/
def busStep (s : DispatchState) (a : BusAction) : DispatchState :=
  match a with
  | .deliverNext =>
      match s.subs[s.idx]? with
      | some c => { s with idx := s.idx + 1, delivered := s.delivered ++ [c] }
      | none => s
  | .unsubscribeStep c => { s with subs := eraseFirst c s.subs }
  | .subscribeStep c => { s with subs := s.subs ++ [c] }

/-- Run of a dispatch that starts over registry list `start`, interleaved
with the given actions. -/
def runDispatch (start : List Nat) (as : List BusAction) : DispatchState :=
  as.foldl busStep ⟨start, 0, []⟩

/-!
Conversation history (`modules/conversation/conversation_module.py`).
-/

/-- A conversation `Message`: its text, speaker, and the `'type'` entry of
its metadata dict (the timestamp plays no role in any claim). -/
structure Message where
  text : String
  speaker : String
  mtype : String
deriving DecidableEq

/-- The trim loop of `ConversationModule._process_message`:
`while len(self.conversation_history) > max_history:
self.conversation_history.pop(0)`. -/
def trimHistory (maxHistory : Nat) : List Message → List Message
  | [] => []
  | x :: rest =>
      if (x :: rest).length > maxHistory then trimHistory maxHistory rest
      else x :: rest

/-- The history update of `_process_message`: append the incoming message to
`conversation_history`, then run the trim loop. -/
def appendToHistory (maxHistory : Nat) (hist : List Message) (m : Message) :
    List Message :=
  trimHistory maxHistory (hist ++ [m])

/-- The history after the conversation module has processed the messages
`ms` in order, starting from the empty history of a fresh module. -/
def runHistory (maxHistory : Nat) (ms : List Message) : List Message :=
  ms.foldl (appendToHistory maxHistory) []

/-- Seven concrete messages for the C4 witness. -/
def demoMessages : List Message :=
  [⟨"m1", "user", "text_input"⟩, ⟨"m2", "user", "text_input"⟩,
   ⟨"m3", "user", "text_input"⟩, ⟨"m4", "user", "text_input"⟩,
   ⟨"m5", "user", "text_input"⟩, ⟨"m6", "user", "text_input"⟩,
   ⟨"m7", "user", "text_input"⟩]

/-!
Module lifecycle (`core/base.py`).
-/

/-- Outcome of a subclass `_initialize` call: it returns True, returns
False, or raises. -/
inductive InitOutcome where
  | ok
  | failed
  | raised
deriving DecidableEq

/-- Lifecycle state of a `BaseModule`: `running`, the `_initialized`
threading event, the `_cleanup_done` guard, and the `state` and `error`
entries of the `_status` dict (`last_update` plays no role in any claim). -/
structure ModState where
  running : Bool
  initEvt : Bool
  cleanupDone : Bool
  state : String
  error : Option String
deriving DecidableEq

/-- State of a freshly constructed module. -/
def ModState.new : ModState := ⟨false, false, false, "initializing", none⟩

/-- Model of `BaseModule.update_status`. -/
def update_status (s : ModState) (st : String) (err : Option String) : ModState :=
  { s with state := st, error := err }

/-- Model of `BaseModule.start`, parameterized by the subclass
`_initialize` outcome.  On success it sets `running`, sets the
`_initialized` event, moves the status to `running` and returns True.  When
`_initialize` returns False the body sets status `error`, raises
`RuntimeError`, and the surrounding `except` block sets status `error`
again (with the exception text) and re-raises; when `_initialize` raises,
the `except` block sets status `error` and re-raises.  The error strings
stand in for Python's `str(e)`. -/
def moduleStart (init : InitOutcome) (s : ModState) : ModState × Except String Bool :=
  match init with
  | .ok =>
      (update_status { s with running := true, initEvt := true } "running" none,
       .ok true)
  | .failed =>
      let s1 := update_status s "error" (some "Initialization failed")
      (update_status s1 "error" (some "failed to initialize"), .error "RuntimeError")
  | .raised =>
      (update_status s "error" (some "exception raised"), .error "exception raised")

/-- Model of `BaseModule.stop`: guarded by `_cleanup_done`.  When the guard
is unset it clears `running` and the `_initialized` event, runs `cleanup()`
(no effect on the base state), sets the guard and moves the status to
`stopped`; when the guard is already set the call does nothing. -/
def moduleStop (s : ModState) : ModState :=
  if s.cleanupDone then s
  else update_status
    { s with running := false, initEvt := false, cleanupDone := true } "stopped" none

/-- A public lifecycle call on a module. -/
inductive LifecycleOp where
  | start (init : InitOutcome)
  | stop
deriving DecidableEq

/-- Effect of one lifecycle call on the module state (the exception a
failing `start` raises propagates to the caller, who may keep calling). -/
def lifecycleStep (s : ModState) (op : LifecycleOp) : ModState :=
  match op with
  | .start init => (moduleStart init s).1
  | .stop => moduleStop s

/-- Module state after a sequence of lifecycle calls on a fresh module. -/
def runLifecycle (ops : List LifecycleOp) : ModState :=
  ops.foldl lifecycleStep ModState.new

/-!
Stopping the conversation module
(`modules/conversation/conversation_module.py`).
-/

/-- State of a `ConversationModule`: the inherited base state, the message
queue (each entry a message or the `None` shutdown sentinel), the
conversation history, the `current_context` entries, and a count of
`cleanup()` invocations. -/
structure ConvState where
  base : ModState
  queue : List (Option Message)
  history : List Message
  contextEntries : List (String × String)
  cleanupCount : Nat
deriving DecidableEq

/-- Model of `ConversationModule.cleanup`: drains the message queue, clears
the history and the context. -/
def convCleanup (s : ConvState) : ConvState :=
  { s with queue := [], history := [], contextEntries := [],
           cleanupCount := s.cleanupCount + 1 }

/-- Model of `BaseModule.stop` as inherited by the conversation module:
guarded by `_cleanup_done`; clears `running` and the `_initialized` event,
runs `ConversationModule.cleanup`, sets the guard and the status
`stopped`. -/
def convBaseStop (s : ConvState) : ConvState :=
  if s.base.cleanupDone then s
  else
    let s1 := { s with base := { s.base with running := false, initEvt := false } }
    let s2 := convCleanup s1
    { s2 with base := update_status { s2.base with cleanupDone := true } "stopped" none }

/-- Model of `ConversationModule.stop`: sets `running := False`,
unconditionally puts the `None` shutdown sentinel on the message queue,
joins the processing thread (no state effect), then calls the inherited
`stop`. -/
def convStop (s : ConvState) : ConvState :=
  convBaseStop { s with base := { s.base with running := false },
                        queue := s.queue ++ [none] }

/-- A conversation module that has started and processed nothing: running,
with empty queue, history and context. -/
def runningConv : ConvState :=
  ⟨⟨true, true, false, "running", none⟩, [], [], [], 0⟩

/-!
Supervisor startup (`core/assistant.py`).
-/

/-- Behavior of one module's `start()` as the supervisor loop observes it:
it returns and the module then reports running; it raises; or it returns
but `is_running()` reports False afterwards. -/
inductive StartBeh where
  | ok
  | raises
  | notRunning
deriving DecidableEq

/-- A module entry of `Assistant.modules` as the start loop sees it. -/
structure ModSpec where
  name : String
  beh : StartBeh
deriving DecidableEq

/-- The fixed `start_order` list of `Assistant.start`. -/
def assistantStartOrder : List String := ["audio", "conversation", "vision"]

/-- The module start loop of `Assistant.start`: for each module in order,
call `start()`.  A raising `start` is re-raised by the inner `except`
branch and propagates out of the loop; otherwise the `is_running()` check
raises `RuntimeError` when the module reports not running, which likewise
propagates (the outer handler catches only `KeyboardInterrupt`).  Returns
the names whose `start()` was invoked and the outcome of the loop. -/
def startModules : List ModSpec → List String × Except String Unit
  | [] => ([], .ok ())
  | m :: rest =>
      match m.beh with
      | .ok =>
          let r := startModules rest
          (m.name :: r.1, r.2)
      | .raises => ([m.name], .error (m.name ++ " raised"))
      | .notRunning => ([m.name], .error (m.name ++ " failed to start properly"))

/-!
Enqueue handlers of the conversation module.
-/

/-- Result of one enqueue handler call: the message queue afterwards, and
the message logged by the handler's `except` branch, when any.  The handler
returns a plain result: its whole body sits inside `try/except Exception`,
so no exception propagates back to the event bus, and `queue.put` on the
unbounded queue never blocks. -/
structure HandlerResult where
  queue : List (Option Message)
  loggedError : Option String
deriving DecidableEq

/-- Dict lookup `d.get(k)` on a string-valued payload dict. -/
def dictGet : List (String × String) → String → Option String
  | [], _ => none
  | (k, v) :: rest, key => if k = key then some v else dictGet rest key

/-- Model of `ConversationModule.handle_voice_command`: reads
`event.data.get('command')`; a truthy command is wrapped in a `Message` and
put on the queue; a missing or empty command is dropped with no statement
executed at all; a payload without `.get` (not a dict) raises
`AttributeError`, caught by the `except` branch, which only logs an
error. -/
def handle_voice_command (e : Event) (q : List (Option Message)) : HandlerResult :=
  match e.data with
  | .dict es =>
      match dictGet es "command" with
      | some c =>
          if c ≠ "" then ⟨q ++ [some ⟨c, "user", "voice_command"⟩], none⟩
          else ⟨q, none⟩
      | none => ⟨q, none⟩
  | .notDict => ⟨q, some "Error handling voice command"⟩

/-- Model of `ConversationModule.handle_text_input`: same shape, reading
the `text` field. -/
def handle_text_input (e : Event) (q : List (Option Message)) : HandlerResult :=
  match e.data with
  | .dict es =>
      match dictGet es "text" with
      | some t =>
          if t ≠ "" then ⟨q ++ [some ⟨t, "user", "text_input"⟩], none⟩
          else ⟨q, none⟩
      | none => ⟨q, none⟩
  | .notDict => ⟨q, some "Error handling text input"⟩

/-!
Theorems.
-/

/-- Helper: the publish loop invokes every subscriber in subscription order
and logs exactly the failing ones. -/
theorem publishLoop_spec (fails : Nat → Bool) (l : List Nat) :
    publishLoop fails l = (l, l.filter fails) := by
  induction l with
  | nil => rfl
  | cons c rest ih =>
      by_cases h : fails c <;>
        simp [publishLoop, runCallback, h, ih, List.filter]

/-- C2: `EventBus.publish` invokes every subscriber of the event's type in
subscription order, whatever subset of them raises; a raising callback is
caught inside `publish` and logged (it appears in `logged`), and no
exception propagates to the publisher — `publish` returns a plain
`PublishResult`, the only raising statement of its body being the callback
call inside `try/except Exception`. -/
theorem publish_isolates_callback_errors (fails : Nat → Bool) (bus : EventBus)
    (e : Event) :
    (publish fails bus e).invoked = (regGet bus.subscribers e.type).getD []
    ∧ (publish fails bus e).logged =
        ((regGet bus.subscribers e.type).getD []).filter fails := by
  unfold publish
  simp [publishLoop_spec]

/-- C5: unsubscribing a registration that is present succeeds, but
unsubscribing it a second time raises `ValueError` instead of being a no-op
(the defaultdict key survives with an empty list, and `list.remove` on that
empty list raises); only when the event type key is absent altogether is
`unsubscribe` a no-op. -/
theorem unsubscribe_twice_raises_valueerror :
    unsubscribe demoBus EventTypes.VOICE_COMMAND 0 = .ok ⟨[("voice_command", [])]⟩
    ∧ unsubscribe ⟨[("voice_command", [])]⟩ EventTypes.VOICE_COMMAND 0 =
        .error "ValueError"
    ∧ unsubscribe EventBus.new "missing" 0 = .ok EventBus.new :=
  ⟨rfl, rfl, rfl⟩

/-- C6: publishing an event whose type is outside `EventTypes.ALL_TYPES` is
silently ignored: `publish` returns normally (its result type has no error
outcome), invokes no callback, logs nothing, and even creates an empty
registry entry for the unknown type via the defaultdict read. -/
theorem publish_unknown_type_silently_ignored :
    "bogus" ∉ EventTypes.ALL_TYPES
    ∧ publish (fun _ => false) demoBus ⟨"bogus", .dict []⟩ =
        ⟨⟨[("voice_command", [0]), ("bogus", [])]⟩, [], []⟩ := by
  constructor
  · decide
  · rfl

/-- C10: `get_subscriber_count` with the empty string returns the total
subscriber count over all event types, exactly as when the argument is
omitted (`None`), because `if event_type:` tests truthiness and `""` is
falsy; on `demoBus` that total is 1 although the registry holds no
subscriber under the key `""`. -/
theorem get_subscriber_count_empty_string_is_total :
    (∀ bus : EventBus, get_subscriber_count bus (some "") = get_subscriber_count bus none)
    ∧ get_subscriber_count demoBus (some "") = 1
    ∧ (regGet demoBus.subscribers "").getD [] = [] :=
  ⟨fun _ => rfl, rfl, rfl⟩

/-- C1: dispatch does not operate on a snapshot.  With subscribers `[0, 1]`
registered at dispatch start, the interleaving "deliver to 0, another
thread unsubscribes 0, publisher resumes" ends the loop (index 1 has
reached the length of the shrunk list) with subscriber 1 never delivered
to, although 1 was registered at dispatch start and is still registered at
dispatch end. -/
theorem publish_misses_delivery_under_concurrent_unsubscribe :
    (runDispatch [0, 1] [.deliverNext, .unsubscribeStep 0, .deliverNext]).delivered = [0]
    ∧ (runDispatch [0, 1] [.deliverNext, .unsubscribeStep 0, .deliverNext]).subs = [1]
    ∧ (runDispatch [0, 1] [.deliverNext, .unsubscribeStep 0, .deliverNext]).subs.length ≤
        (runDispatch [0, 1] [.deliverNext, .unsubscribeStep 0, .deliverNext]).idx
    ∧ (1 : Nat) ∈ [0, 1]
    ∧ (1 : Nat) ∉ (runDispatch [0, 1] [.deliverNext, .unsubscribeStep 0, .deliverNext]).delivered := by
  decide

/-- Helper: the trim loop drops exactly the oldest entries beyond the cap. -/
theorem trimHistory_eq_drop (N : Nat) (l : List Message) :
    trimHistory N l = l.drop (l.length - N) := by
  induction l with
  | nil => simp [trimHistory]
  | cons x rest ih =>
      by_cases h : (x :: rest).length > N
      · have h2 : (x :: rest).length - N = (rest.length - N) + 1 := by
          simp only [List.length_cons] at h ⊢; omega
        rw [trimHistory, if_pos h, h2, List.drop_succ_cons, ih]
      · have h2 : (x :: rest).length - N = 0 := by
          simp only [List.length_cons] at h ⊢; omega
        rw [trimHistory, if_neg h, h2, List.drop_zero]

/-- Helper: trimming after an append starting from a trimmed history gives
the same result as trimming the untrimmed appended list. -/
theorem trimHistory_append_trim (N : Nat) (l : List Message) (m : Message) :
    trimHistory N (trimHistory N l ++ [m]) = trimHistory N (l ++ [m]) := by
  rw [trimHistory_eq_drop, trimHistory_eq_drop, trimHistory_eq_drop,
    ← List.drop_append_of_le_length (Nat.sub_le l.length N), List.drop_drop]
  congr 1
  simp only [List.length_append, List.length_drop, List.length_cons,
    List.length_nil]
  omega

/-- Helper: folding the history update over a message list, started from a
trimmed history, trims the whole concatenation. -/
theorem foldl_appendToHistory (N : Nat) (ms : List Message) :
    ∀ l : List Message,
      ms.foldl (appendToHistory N) (trimHistory N l) = trimHistory N (l ++ ms) := by
  induction ms with
  | nil => intro l; simp
  | cons m rest ih =>
      intro l
      have h1 : appendToHistory N (trimHistory N l) m = trimHistory N (l ++ [m]) :=
        trimHistory_append_trim N l m
      calc (m :: rest).foldl (appendToHistory N) (trimHistory N l)
          = rest.foldl (appendToHistory N) (trimHistory N (l ++ [m])) := by
            rw [List.foldl_cons, h1]
        _ = trimHistory N ((l ++ [m]) ++ rest) := ih (l ++ [m])
        _ = trimHistory N (l ++ m :: rest) := by
            rw [List.append_assoc]; rfl

/-- C4: after processing any message sequence `ms`, the conversation history
holds at most `N` entries; it is exactly the suffix of the `N` most recent
messages in order (FIFO eviction of the oldest); in particular inserting
`N + 5` messages leaves exactly the `N` most recent ones. -/
theorem conversation_history_bounded_fifo (N : Nat) (ms : List Message) :
    (runHistory N ms).length ≤ N
    ∧ runHistory N ms = ms.drop (ms.length - N)
    ∧ (ms.length = N + 5 →
        runHistory N ms = ms.drop 5 ∧ (runHistory N ms).length = N) := by
  have hr : runHistory N ms = ms.drop (ms.length - N) := by
    have h0 : trimHistory N ([] : List Message) = [] := rfl
    have h1 := foldl_appendToHistory N ms []
    rw [h0] at h1
    rw [runHistory, h1, List.nil_append, trimHistory_eq_drop]
  refine ⟨?_, hr, fun h5 => ⟨?_, ?_⟩⟩
  · rw [hr]
    simp only [List.length_drop]
    omega
  · rw [hr, h5]
    congr 1
    omega
  · rw [hr]
    simp only [List.length_drop]
    omega

/-- Witness for C4 at `N = 2` and seven inserted messages: the history ends
as the two most recent ones. -/
theorem conversation_history_bounded_fifo_witness :
    runHistory 2 demoMessages = demoMessages.drop 5
    ∧ (runHistory 2 demoMessages).length = 2 :=
  (conversation_history_bounded_fifo 2 demoMessages).2.2 (by rfl)

/-- C3 counterexample: after a successful start followed by stop the status
is `stopped`, yet a further `start` call — unguarded in `BaseModule.start` —
moves the module back to `running`: a transition out of `stopped`. -/
theorem stopped_module_restarts_on_start :
    (runLifecycle [.start .ok, .stop]).state = "stopped"
    ∧ (runLifecycle [.start .ok, .stop, .start .ok]).state = "running" :=
  ⟨rfl, rfl⟩

/-- C3 amended: `stop` only ever moves the status to `stopped` (or, once the
cleanup guard is set, leaves the state untouched) and is idempotent; but
`start` is not guarded by the `stopped` (or `error`) status: on any state a
successful start sets the status to `running` and a failing one to `error`,
so calling `start` again on a stopped module does transition out of
`stopped`. -/
theorem stop_terminal_only_without_restart (s : ModState) :
    (moduleStop s = s ∨ (moduleStop s).state = "stopped")
    ∧ moduleStop (moduleStop s) = moduleStop s
    ∧ (moduleStart .ok s).1.state = "running"
    ∧ (moduleStart .failed s).1.state = "error"
    ∧ (moduleStart .raised s).1.state = "error" := by
  unfold moduleStop moduleStart update_status
  by_cases h : s.cleanupDone <;> simp [h]

/-- C7 counterexample: the second `stop` call still invokes `cleanup` only
once, but it is not free of effects on the module state: it pushes another
shutdown sentinel onto the message queue, so the state after the second
call differs from the state after the first. -/
theorem second_stop_enqueues_extra_sentinel :
    (convStop (convStop runningConv)).cleanupCount = 1
    ∧ (convStop runningConv).queue = []
    ∧ (convStop (convStop runningConv)).queue = [none]
    ∧ convStop (convStop runningConv) ≠ convStop runningConv := by
  refine ⟨rfl, rfl, rfl, ?_⟩
  decide

/-- C7 amended: from any state whose cleanup guard is unset, stopping twice
invokes `cleanup` exactly once (the guard blocks the second invocation) and
the second call leaves the base lifecycle state, the history and the
context unchanged — but it appends one more `None` shutdown sentinel to the
message queue, its only additional effect. -/
theorem conv_stop_cleanup_once (s : ConvState) (h : s.base.cleanupDone = false) :
    (convStop s).cleanupCount = s.cleanupCount + 1
    ∧ (convStop (convStop s)).cleanupCount = (convStop s).cleanupCount
    ∧ (convStop (convStop s)).base = (convStop s).base
    ∧ (convStop (convStop s)).history = (convStop s).history
    ∧ (convStop (convStop s)).contextEntries = (convStop s).contextEntries
    ∧ (convStop (convStop s)).queue = (convStop s).queue ++ [none] := by
  unfold convStop convBaseStop convCleanup update_status
  simp [h]

/-- Witness for C7 amended at the concrete running module. -/
theorem conv_stop_cleanup_once_witness :
    (convStop runningConv).cleanupCount = runningConv.cleanupCount + 1
    ∧ (convStop (convStop runningConv)).queue = (convStop runningConv).queue ++ [none] :=
  ⟨(conv_stop_cleanup_once runningConv rfl).1,
   (conv_stop_cleanup_once runningConv rfl).2.2.2.2.2⟩

/-- Helper: the start loop is fail-fast — with every module before `m`
starting fine and `m` failing, exactly the modules up to and including `m`
had `start()` called, and the loop aborts with an error. -/
theorem startModules_fail_fast (pre post : List ModSpec) (m : ModSpec)
    (hpre : ∀ x ∈ pre, x.beh = .ok) (hm : m.beh ≠ .ok) :
    (startModules (pre ++ m :: post)).1 = pre.map ModSpec.name ++ [m.name]
    ∧ ∃ msg, (startModules (pre ++ m :: post)).2 = .error msg := by
  induction pre with
  | nil =>
      simp only [List.nil_append, List.map_nil]
      cases hb : m.beh with
      | ok => exact absurd hb hm
      | raises =>
          exact ⟨by simp [startModules, hb],
                 ⟨m.name ++ " raised", by simp [startModules, hb]⟩⟩
      | notRunning =>
          exact ⟨by simp [startModules, hb],
                 ⟨m.name ++ " failed to start properly", by simp [startModules, hb]⟩⟩
  | cons p rest ih =>
      have hp : p.beh = .ok := hpre p (List.mem_cons_self _ _)
      have hrest : ∀ x ∈ rest, x.beh = .ok := fun x hx => hpre x (List.mem_cons_of_mem _ hx)
      obtain ⟨h1, msg, h2⟩ := ih hrest
      refine ⟨?_, ⟨msg, ?_⟩⟩
      · simp [startModules, hp, h1]
      · simp [startModules, hp, h2]

/-- C8: the start order is audio, conversation, vision, and startup is
fail-fast: when every module before `m` in the order starts fine and `m`
raises or reports not running, exactly the modules up to and including `m`
had `start()` called — no later module's start runs — and the startup
aborts with a propagating error. -/
theorem assistant_start_fail_fast :
    assistantStartOrder = ["audio", "conversation", "vision"]
    ∧ ∀ (pre post : List ModSpec) (m : ModSpec),
        (∀ x ∈ pre, x.beh = .ok) → m.beh ≠ .ok →
        (startModules (pre ++ m :: post)).1 = pre.map ModSpec.name ++ [m.name]
        ∧ ∃ msg, (startModules (pre ++ m :: post)).2 = .error msg :=
  ⟨rfl, fun pre post m hpre hm => startModules_fail_fast pre post m hpre hm⟩

/-- Witness for C8: audio starts fine, conversation raises — audio and
conversation had `start()` called, vision never, and startup errors out. -/
theorem assistant_start_fail_fast_witness :
    (startModules [⟨"audio", .ok⟩, ⟨"conversation", .raises⟩, ⟨"vision", .ok⟩]).1
      = ["audio", "conversation"]
    ∧ (∃ msg, (startModules
        [⟨"audio", .ok⟩, ⟨"conversation", .raises⟩, ⟨"vision", .ok⟩]).2 = .error msg) := by
  have h := assistant_start_fail_fast.2 [⟨"audio", .ok⟩] [⟨"vision", .ok⟩]
    ⟨"conversation", .raises⟩ (by decide) (by decide)
  exact ⟨h.1, h.2⟩

/-- C9 counterexample: an event whose dict payload lacks the expected field
is dropped with no log at all — not with a logged warning. -/
theorem malformed_event_dropped_without_log :
    handle_voice_command ⟨EventTypes.VOICE_COMMAND, .dict [("other", "x")]⟩ [] =
      ⟨[], none⟩
    ∧ handle_text_input ⟨EventTypes.TEXT_INPUT, .dict []⟩ [] = ⟨[], none⟩ :=
  ⟨rfl, rfl⟩

/-- C9 amended: the enqueue handlers never propagate an exception to the
bus (they return a plain result); a dict payload missing the expected field
is dropped silently, with no log of any level; a non-dict payload is
dropped with an error-level log; and a payload carrying a non-empty field
value is enqueued at the back of the queue without blocking. -/
theorem handlers_drop_malformed_events (e : Event) (q : List (Option Message)) :
    (∀ es, e.data = .dict es →
        (handle_voice_command e q).loggedError = none
        ∧ (handle_text_input e q).loggedError = none
        ∧ (dictGet es "command" = none → (handle_voice_command e q).queue = q)
        ∧ (dictGet es "text" = none → (handle_text_input e q).queue = q))
    ∧ (e.data = .notDict →
        handle_voice_command e q = ⟨q, some "Error handling voice command"⟩
        ∧ handle_text_input e q = ⟨q, some "Error handling text input"⟩)
    ∧ (∀ es c, e.data = .dict es → dictGet es "command" = some c → c ≠ "" →
        (handle_voice_command e q).queue = q ++ [some ⟨c, "user", "voice_command"⟩])
    ∧ (∀ es t, e.data = .dict es → dictGet es "text" = some t → t ≠ "" →
        (handle_text_input e q).queue = q ++ [some ⟨t, "user", "text_input"⟩]) := by
  obtain ⟨ty, d⟩ := e
  refine ⟨fun es hes => ?_, fun hnd => ?_,
          fun es c hes hc hne => ?_, fun es t hes ht hne => ?_⟩
  · subst hes
    refine ⟨?_, ?_, fun hc => ?_, fun ht => ?_⟩
    · simp only [handle_voice_command]
      cases hcg : dictGet es "command" with
      | none => rfl
      | some c => by_cases hch : c = "" <;> simp [hch]
    · simp only [handle_text_input]
      cases htg : dictGet es "text" with
      | none => rfl
      | some t => by_cases hth : t = "" <;> simp [hth]
    · simp [handle_voice_command, hc]
    · simp [handle_text_input, ht]
  · subst hnd
    exact ⟨rfl, rfl⟩
  · subst hes
    simp [handle_voice_command, hc, hne]
  · subst hes
    simp [handle_text_input, ht, hne]

/-- Witness for C9 amended: a payload without the `command` field is
dropped silently; a payload with `command` set to `hello` is enqueued. -/
theorem handlers_drop_malformed_events_witness :
    (handle_voice_command ⟨"voice_command", .dict [("other", "x")]⟩ []).queue = []
    ∧ (handle_voice_command ⟨"voice_command", .dict [("other", "x")]⟩ []).loggedError = none
    ∧ (handle_voice_command ⟨"voice_command", .dict [("command", "hello")]⟩ []).queue
        = [] ++ [some ⟨"hello", "user", "voice_command"⟩] := by
  refine ⟨?_, ?_, ?_⟩
  · exact ((handlers_drop_malformed_events
      ⟨"voice_command", .dict [("other", "x")]⟩ []).1 _ rfl).2.2.1 rfl
  · exact ((handlers_drop_malformed_events
      ⟨"voice_command", .dict [("other", "x")]⟩ []).1 _ rfl).1
  · exact (handlers_drop_malformed_events
      ⟨"voice_command", .dict [("command", "hello")]⟩ []).2.2.1 _ "hello" rfl rfl (by decide)
